import Mathlib

/-!
Verification of the reminder-scheduling core of the telegram task assistant.

The embedding models time as `Int` (minutes); `timedelta(minutes=m)` becomes
addition/subtraction of `m`.  The APScheduler background scheduler is modelled
as an association list from job-id strings to job specifications; `add_job`
with `replace_existing=True` removes any entry with the same id and appends
the new one, `remove_job` filters the entry out (the source wraps it in
`try/except`, so removing a missing id is a no-op).  Django model instances
become plain structures; the task table is a list of tasks, `save` updates the
row with the matching primary key.  Message strings are transcribed from the
source with decorative emoji and apostrophes elided, which no claim inspects.
-/

namespace Bot

/-- Wall-clock time in minutes (the minute offsets of the source are exact). -/
abbrev Time := Int

/-- The `PRIORITY_CHOICES` of `bot/models.py`. -/
inductive Priority where
  | low
  | medium
  | high
  | urgent
deriving DecidableEq, Repr

/-- The `STATUS_CHOICES` of `bot/models.py`. -/
inductive Status where
  | pending
  | completed
  | cancelled
  | overdue
deriving DecidableEq, Repr

/-- The `Task` model of `bot/models.py` (fields not read by the scheduling
    code — timestamps, `reminder_sent`, `telegram_message_id` — are omitted).
    Defaults mirror the model field defaults. -/
structure Task where
  id : Nat
  title : String
  description : String := ""
  due_time : Option Time := none
  priority : Priority := .medium
  status : Status := .pending
deriving DecidableEq, Repr

/-- The persisted `Reminder` model of `bot/models.py` (audit record). -/
structure Reminder where
  taskId : Nat
  reminder_time : Time
  message : String
  is_sent : Bool := false
deriving DecidableEq, Repr

/-- A live APScheduler job: either a `DateTrigger` one-shot carrying
    `args=[str(task.id), reminder_type]`, or an `interval` job with a start
    date and period carrying `args=[str(task.id)]`. -/
inductive JobSpec where
  | oneShot (runDate : Time) (taskId : Nat) (reminderType : String)
  | interval (startDate : Time) (minutes : Int) (taskId : Nat)
deriving DecidableEq, Repr

/-- Scheduler state: the installed job map (keyed by job-id string) together
    with the persisted `Reminder` rows created so far. -/
structure SchedState where
  jobs : List (String × JobSpec)
  reminders : List Reminder
deriving DecidableEq, Repr

/-- A scheduler with no installed jobs and an empty reminder table. -/
def SchedState.empty : SchedState := ⟨[], []⟩

/-- `scheduler.remove_job(jid)` (missing id is a no-op, matching the
    source's `try/except`). -/
def erase_job (jobs : List (String × JobSpec)) (jid : String) :
    List (String × JobSpec) :=
  jobs.filter (fun p => p.1 != jid)

/-- `scheduler.add_job(..., id=jid, replace_existing=True)`: any job already
    installed at this id is replaced. -/
def add_job (jobs : List (String × JobSpec)) (jid : String) (j : JobSpec) :
    List (String × JobSpec) :=
  erase_job jobs jid ++ [(jid, j)]

/-- Look up the installed job at an id. -/
def find_job (jobs : List (String × JobSpec)) (jid : String) : Option JobSpec :=
  (jobs.find? (fun p => p.1 == jid)).map Prod.snd

/-- The job id `f"reminder_{task.id}_{reminder_type}"` built in
    `schedule_single_reminder`. -/
def one_shot_job_id (task_id : Nat) (reminder_type : String) : String :=
  "reminder_" ++ toString task_id ++ "_" ++ reminder_type

/-- The job id `f"recurring_{task.id}"` built in
    `schedule_recurring_reminder`. -/
def recurring_job_id (task_id : Nat) : String :=
  "recurring_" ++ toString task_id

/-- The `Reminder` row created by `Reminder.objects.create` in
    `schedule_single_reminder` (message `f"Reminder for: {task.title}"`,
    `is_sent` left at its default). -/
def reminder_row (task : Task) (reminder_time : Time) : Reminder :=
  { taskId := task.id, reminder_time := reminder_time,
    message := "Reminder for: " ++ task.title }

/-- `schedule_single_reminder(task, reminder_time, reminder_type)` from
    `bot/scheduler.py`: persist a `Reminder` row, then install a one-shot job
    at the deterministic id with `replace_existing=True`. -/
def schedule_single_reminder (task : Task) (reminder_time : Time)
    (reminder_type : String) (st : SchedState) : SchedState :=
  let j : JobSpec := .oneShot reminder_time task.id reminder_type
  { jobs := add_job st.jobs (one_shot_job_id task.id reminder_type) j,
    reminders := st.reminders ++ [reminder_row task reminder_time] }

/-- `schedule_recurring_reminder(task)` from `bot/scheduler.py`: install an
    every-5-minutes interval job starting 5 minutes after the due time, only
    when that start time is still in the future.  A task without a due time
    raises inside the `try` block and is caught, leaving the state unchanged. -/
def schedule_recurring_reminder (task : Task) (now : Time) (st : SchedState) :
    SchedState :=
  match task.due_time with
  | none => st
  | some d =>
      let start_time := d + 5
      let j : JobSpec := .interval start_time 5 task.id
      if start_time > now then
        { st with jobs := add_job st.jobs (recurring_job_id task.id) j }
      else st

/-- `schedule_reminder(task)` from `bot/scheduler.py`: the priority-dependent
    reminder policy.  Urgent: one-shots 30/15/5 minutes before the due time
    plus the recurring job; high: a one-shot 15 minutes before plus the
    recurring job; medium/low: only the 15-minute one-shot.  Each one-shot is
    installed only when its fire time is strictly in the future. -/
def schedule_reminder (task : Task) (now : Time) (st : SchedState) :
    SchedState :=
  match task.due_time with
  | none => st
  | some d =>
      match task.priority with
      | .urgent =>
          let st1 := if d - 30 > now then
            schedule_single_reminder task (d - 30) "urgent_30min" st else st
          let st2 := if d - 15 > now then
            schedule_single_reminder task (d - 15) "urgent_15min" st1 else st1
          let st3 := if d - 5 > now then
            schedule_single_reminder task (d - 5) "urgent_5min" st2 else st2
          schedule_recurring_reminder task now st3
      | .high =>
          let st1 := if d - 15 > now then
            schedule_single_reminder task (d - 15) "high_15min" st else st
          schedule_recurring_reminder task now st1
      | _ =>
          if d - 15 > now then
            schedule_single_reminder task (d - 15) "standard_15min" st else st

/-- `stop_recurring_reminders(task_id)` from `bot/scheduler.py`. -/
def stop_recurring_reminders (task_id : Nat) (st : SchedState) : SchedState :=
  { st with jobs := erase_job st.jobs (recurring_job_id task_id) }

/-- The per-task body of `check_overdue_tasks`: a pending task whose due time
    is strictly before `now` is saved with status `overdue`; every other task
    is not selected by the query and is untouched. -/
def sweep_task (now : Time) (t : Task) : Task :=
  match t.due_time with
  | some d =>
      if d < now ∧ t.status = .pending then { t with status := .overdue } else t
  | none => t

/-- `check_overdue_tasks()` from `bot/scheduler.py`: the hourly overdue
    sweep over the task table. -/
def check_overdue_tasks (now : Time) (tasks : List Task) : List Task :=
  tasks.map (sweep_task now)

/-- `Task.mark_completed` from `bot/models.py`. -/
def mark_completed (t : Task) : Task := { t with status := .completed }

/-- `Task.objects.get(id=task_id)` (`none` models `Task.DoesNotExist`). -/
def get_task (tasks : List Task) (task_id : Nat) : Option Task :=
  tasks.find? (fun t => t.id == task_id)

/-- `task.save()`: update the row with the matching primary key. -/
def save_task (tasks : List Task) (t : Task) : List Task :=
  tasks.map (fun u => if u.id == t.id then t else u)

/-- The `complete_` branch of `TelegramBot.handle_callback`: load the task,
    `mark_completed` it, and — only when its priority is high or urgent —
    call `stop_recurring_reminders`, which removes only the recurring job. -/
def handle_complete (tasks : List Task) (st : SchedState) (task_id : Nat) :
    List Task × SchedState :=
  match get_task tasks task_id with
  | none => (tasks, st)
  | some task =>
      let tasks' := save_task tasks (mark_completed task)
      let st' := if task.priority = .high ∨ task.priority = .urgent then
          stop_recurring_reminders task_id st
        else st
      (tasks', st')

/-- Python's `sub in s` substring test. -/
def str_contains (s sub : String) : Bool :=
  decide (sub.data <:+: s.data)

/-- `TelegramBot.get_priority_emoji`. -/
def get_priority_emoji (p : Priority) : String :=
  match p with
  | .low => "green"
  | .medium => "yellow"
  | .high => "orange"
  | .urgent => "red"

/-- `TelegramBot.send_reminder(task_id, custom_message, reminder_type)`: the
    one-shot firing body.  It reloads the task by id (`none` when the task no
    longer exists), returns without dispatching when the reloaded status is
    `completed`, and otherwise dispatches one message (returned as `some`).
    A task without a due time raises computing `time_left` and the exception
    handler swallows it, so nothing is dispatched. -/
def send_reminder (tasks : List Task) (task_id : Nat) (now : Time)
    (custom_message : Option String) (reminder_type : String) : Option String :=
  match get_task tasks task_id with
  | none => none
  | some task =>
      if task.status = .completed then none
      else
        match custom_message with
        | some m => some m
        | none =>
            match task.due_time with
            | none => none
            | some d =>
                let minutes_left := d - now
                let pe := get_priority_emoji task.priority
                let header :=
                  if str_contains reminder_type "urgent" then
                    "URGENT REMINDER! " ++ pe ++ "\n\n"
                  else if str_contains reminder_type "high" then
                    "HIGH PRIORITY REMINDER! " ++ pe ++ "\n\n"
                  else "Reminder! " ++ pe ++ "\n\n"
                let body := header ++ task.title ++ "\n" ++
                  (if task.description ≠ "" then task.description ++ "\n" else "")
                let timing :=
                  if minutes_left > 0 then
                    "Due in " ++ toString minutes_left ++ " minutes!\n\n"
                  else if minutes_left < 0 then
                    "Overdue by " ++ toString minutes_left.natAbs ++ " minutes!\n\n"
                  else "Due NOW!\n\n"
                some (body ++ timing ++ "Good luck! You have got this!")

/-- `TelegramBot.send_recurring_reminder(task_id)`: the recurring firing
    body.  It reloads the task by id; on `Task.DoesNotExist` or when the
    reloaded status is `completed` it calls `stop_recurring_reminders` and
    exits without dispatching; otherwise it dispatches one overdue nag.
    The returned pair is (dispatched message, scheduler state after the
    tick). -/
def send_recurring_reminder (tasks : List Task) (st : SchedState)
    (task_id : Nat) (now : Time) : Option String × SchedState :=
  match get_task tasks task_id with
  | none => (none, stop_recurring_reminders task_id st)
  | some task =>
      if task.status = .completed then
        (none, stop_recurring_reminders task_id st)
      else
        match task.due_time with
        | none => (none, st)
        | some d =>
            let minutes_overdue := now - d
            let pe := get_priority_emoji task.priority
            let header :=
              if task.priority = .urgent then
                "URGENT - STILL PENDING! " ++ pe ++ "\n\n"
              else "HIGH PRIORITY - STILL PENDING! " ++ pe ++ "\n\n"
            let body := header ++ task.title ++ "\n" ++
              (if task.description ≠ "" then task.description ++ "\n" else "")
            let timing := "Overdue by " ++ toString minutes_overdue ++
              " minutes!\n\n"
            (some (body ++ timing ++ "Please complete this important task!"), st)

/-! Helper lemmas about job ids and the job map. -/

theorem string_data_inj {a b : String} (h : a.data = b.data) : a = b := by
  cases a
  cases b
  exact congrArg String.mk h

theorem one_shot_job_id_ne (t1 t2 : Nat) {a b : String} (hab : a ≠ b)
    (ht : t1 = t2) : one_shot_job_id t1 a ≠ one_shot_job_id t2 b := by
  subst ht
  unfold one_shot_job_id
  intro he
  apply hab
  have hd := congrArg String.data he
  simp only [String.data_append] at hd
  exact string_data_inj (List.append_cancel_left hd)

theorem recurring_job_id_ne_one_shot (a b : Nat) (rt : String) :
    recurring_job_id a ≠ one_shot_job_id b rt := by
  intro he
  have hd := congrArg String.data he
  simp only [recurring_job_id, one_shot_job_id, String.data_append] at hd
  simp only [List.cons_append, List.nil_append, List.append_assoc] at hd
  injection hd with hx hd
  injection hd with hx hd
  injection hd with h3 hd
  exact absurd h3 (by decide)

theorem find_job_nil (jid : String) : find_job [] jid = none := rfl

theorem find_job_add (s : List (String × JobSpec)) (i i' : String) (j : JobSpec) :
    find_job (add_job s i j) i' = if i' = i then some j else find_job s i' := by
  unfold find_job add_job erase_job
  rw [List.find?_append]
  by_cases hii : i' = i
  · subst hii
    have h1 : (s.filter (fun p => p.1 != i')).find? (fun p => p.1 == i') = none := by
      rw [List.find?_eq_none]
      intro p hp
      have h2 := (List.mem_filter.mp hp).2
      rw [bne_iff_ne] at h2
      simp [h2]
    simp [h1]
  · have h2 : List.find? (fun p => p.1 == i') [(i, j)] = none := by
      have : (i == i') = false := by
        rw [beq_eq_false_iff_ne]
        exact fun h => hii h.symm
      simp [List.find?, this]
    rw [h2]
    have h3 : (s.filter (fun p => p.1 != i)).find? (fun p => p.1 == i')
        = s.find? (fun p => p.1 == i') := by
      induction s with
      | nil => rfl
      | cons hd tl ih =>
          rw [List.filter_cons]
          by_cases hhd : hd.1 = i
          · have hb : (hd.1 != i) = false := by simp [hhd]
            have hb2 : (hd.1 == i') = false := by
              rw [beq_eq_false_iff_ne, hhd]
              exact fun h => hii h.symm
            simp [hb, hb2, List.find?_cons, ih]
          · have hb : (hd.1 != i) = true := by simp [hhd]
            simp only [hb, if_true]
            rw [List.find?_cons, List.find?_cons]
            cases hb2 : hd.1 == i' <;> simp [ih]
    simp [h3, hii]

theorem find_job_erase (s : List (String × JobSpec)) (i i' : String) :
    find_job (erase_job s i) i' = if i' = i then none else find_job s i' := by
  unfold find_job erase_job
  by_cases hii : i' = i
  · subst hii
    have h1 : (s.filter (fun p => p.1 != i')).find? (fun p => p.1 == i') = none := by
      rw [List.find?_eq_none]
      intro p hp
      have h2 := (List.mem_filter.mp hp).2
      rw [bne_iff_ne] at h2
      simp [h2]
    simp [h1]
  · have h3 : (s.filter (fun p => p.1 != i)).find? (fun p => p.1 == i')
        = s.find? (fun p => p.1 == i') := by
      induction s with
      | nil => rfl
      | cons hd tl ih =>
          rw [List.filter_cons]
          by_cases hhd : hd.1 = i
          · have hb : (hd.1 != i) = false := by simp [hhd]
            have hb2 : (hd.1 == i') = false := by
              rw [beq_eq_false_iff_ne, hhd]
              exact fun h => hii h.symm
            simp [hb, hb2, List.find?_cons, ih]
          · have hb : (hd.1 != i) = true := by simp [hhd]
            simp only [hb, if_true]
            rw [List.find?_cons, List.find?_cons]
            cases hb2 : hd.1 == i' <;> simp [ih]
    simp [h3, hii]

/-- The effect of one `schedule_reminder` call on the job installed at a
    given id, as a function of the previously installed job (proof helper:
    the later `add_job` calls of the policy shadow the earlier ones). -/
def sched_find_fun (t : Task) (now : Time) (jid : String)
    (prev : Option JobSpec) : Option JobSpec :=
  match t.due_time with
  | none => prev
  | some d =>
      match t.priority with
      | .urgent =>
          let f1 := if d - 30 > now ∧ jid = one_shot_job_id t.id "urgent_30min"
            then some (.oneShot (d - 30) t.id "urgent_30min") else prev
          let f2 := if d - 15 > now ∧ jid = one_shot_job_id t.id "urgent_15min"
            then some (.oneShot (d - 15) t.id "urgent_15min") else f1
          let f3 := if d - 5 > now ∧ jid = one_shot_job_id t.id "urgent_5min"
            then some (.oneShot (d - 5) t.id "urgent_5min") else f2
          if d + 5 > now ∧ jid = recurring_job_id t.id
            then some (.interval (d + 5) 5 t.id) else f3
      | .high =>
          let f1 := if d - 15 > now ∧ jid = one_shot_job_id t.id "high_15min"
            then some (.oneShot (d - 15) t.id "high_15min") else prev
          if d + 5 > now ∧ jid = recurring_job_id t.id
            then some (.interval (d + 5) 5 t.id) else f1
      | _ =>
          if d - 15 > now ∧ jid = one_shot_job_id t.id "standard_15min"
            then some (.oneShot (d - 15) t.id "standard_15min") else prev

theorem find_schedule_reminder (t : Task) (now : Time) (st : SchedState)
    (jid : String) :
    find_job (schedule_reminder t now st).jobs jid
      = sched_find_fun t now jid (find_job st.jobs jid) := by
  unfold schedule_reminder sched_find_fun
  cases hd : t.due_time with
  | none => rfl
  | some d =>
      cases hp : t.priority <;>
        simp only [schedule_single_reminder, schedule_recurring_reminder, hd] <;>
        split_ifs <;>
        simp_all [find_job_add]

theorem sched_find_fun_idem (t : Task) (now : Time) (jid : String)
    (x : Option JobSpec) :
    sched_find_fun t now jid (sched_find_fun t now jid x)
      = sched_find_fun t now jid x := by
  unfold sched_find_fun
  cases t.due_time with
  | none => rfl
  | some d =>
      cases t.priority <;> dsimp only <;> split_ifs <;> rfl

/-! Spec-side definitions, written from the wording of the spec for the
    refinement claims. -/

/-- The job set of the policy table in spec section 4.1: urgent gets
    one-shots 30, 15 and 5 minutes before the due time plus the recurring
    every-5-minutes job starting 5 minutes after it; high gets the 15-minute
    one-shot plus the recurring job; medium and low get only the 15-minute
    one-shot.  Fire times are exact minute subtraction/addition from the due
    time (spec-side definition for claim C1). -/
def policy_table_jobs (t : Task) (d : Time) : List (String × JobSpec) :=
  match t.priority with
  | .urgent =>
      [(one_shot_job_id t.id "urgent_30min",
          .oneShot (d - 30) t.id "urgent_30min"),
       (one_shot_job_id t.id "urgent_15min",
          .oneShot (d - 15) t.id "urgent_15min"),
       (one_shot_job_id t.id "urgent_5min",
          .oneShot (d - 5) t.id "urgent_5min"),
       (recurring_job_id t.id, .interval (d + 5) 5 t.id)]
  | .high =>
      [(one_shot_job_id t.id "high_15min",
          .oneShot (d - 15) t.id "high_15min"),
       (recurring_job_id t.id, .interval (d + 5) 5 t.id)]
  | _ =>
      [(one_shot_job_id t.id "standard_15min",
          .oneShot (d - 15) t.id "standard_15min")]

/-- All fire times computed by the policy for this priority lie strictly in
    the future: the earliest computed fire time is `due - 30` for urgent and
    `due - 15` for every other priority (spec-side definition for claim C1). -/
def all_fire_times_future (p : Priority) (d now : Time) : Prop :=
  match p with
  | .urgent => d - 30 > now
  | _ => d - 15 > now

/-- The one-shot reminder kinds and their minute offsets before the due
    time, per priority (spec-side enumeration for claim C2). -/
def one_shot_offsets (p : Priority) : List (String × Int) :=
  match p with
  | .urgent => [("urgent_30min", 30), ("urgent_15min", 15), ("urgent_5min", 5)]
  | .high => [("high_15min", 15)]
  | _ => [("standard_15min", 15)]

/-- Priorities whose policy row includes the recurring job (spec-side
    definition for claim C2). -/
def has_recurring_row (p : Priority) : Prop :=
  p = .urgent ∨ p = .high

/-- C1: for every task with a set due time and priority, scheduling at a
    time `now` at which all computed fire times are strictly in the future
    installs exactly the job set of the policy table: urgent gets one-shot
    jobs at `due-30`, `due-15` and `due-5` minutes plus the recurring
    every-5-minutes job starting at `due+5`; high gets the `due-15` one-shot
    plus the recurring job; medium and low get only the `due-15` one-shot,
    all fire times computed by exact minute arithmetic from the due time. -/
theorem claim_C1_policy_table (t : Task) (d now : Time)
    (hdue : t.due_time = some d)
    (hfut : all_fire_times_future t.priority d now) :
    (schedule_reminder t now SchedState.empty).jobs = policy_table_jobs t d := by
  have n30_15 : (one_shot_job_id t.id "urgent_30min"
      != one_shot_job_id t.id "urgent_15min") = true := by
    rw [bne_iff_ne]; exact one_shot_job_id_ne _ _ (by decide) rfl
  have n30_5 : (one_shot_job_id t.id "urgent_30min"
      != one_shot_job_id t.id "urgent_5min") = true := by
    rw [bne_iff_ne]; exact one_shot_job_id_ne _ _ (by decide) rfl
  have n15_5 : (one_shot_job_id t.id "urgent_15min"
      != one_shot_job_id t.id "urgent_5min") = true := by
    rw [bne_iff_ne]; exact one_shot_job_id_ne _ _ (by decide) rfl
  have r30 : (one_shot_job_id t.id "urgent_30min"
      != recurring_job_id t.id) = true := by
    rw [bne_iff_ne]; exact fun h => recurring_job_id_ne_one_shot _ _ _ h.symm
  have r15 : (one_shot_job_id t.id "urgent_15min"
      != recurring_job_id t.id) = true := by
    rw [bne_iff_ne]; exact fun h => recurring_job_id_ne_one_shot _ _ _ h.symm
  have r5 : (one_shot_job_id t.id "urgent_5min"
      != recurring_job_id t.id) = true := by
    rw [bne_iff_ne]; exact fun h => recurring_job_id_ne_one_shot _ _ _ h.symm
  have rh : (one_shot_job_id t.id "high_15min"
      != recurring_job_id t.id) = true := by
    rw [bne_iff_ne]; exact fun h => recurring_job_id_ne_one_shot _ _ _ h.symm
  unfold all_fire_times_future at hfut
  cases hp : t.priority <;> rw [hp] at hfut
  case low =>
    have c2 : d - 15 > now := hfut
    simp [schedule_reminder, hdue, hp, schedule_single_reminder,
      SchedState.empty, add_job, erase_job, c2, policy_table_jobs]
  case medium =>
    have c2 : d - 15 > now := hfut
    simp [schedule_reminder, hdue, hp, schedule_single_reminder,
      SchedState.empty, add_job, erase_job, c2, policy_table_jobs]
  case high =>
    have c2 : d - 15 > now := hfut
    have c4 : d + 5 > now := by linarith
    simp [schedule_reminder, hdue, hp, schedule_single_reminder,
      schedule_recurring_reminder, SchedState.empty, add_job, erase_job,
      c2, c4, rh, policy_table_jobs]
  case urgent =>
    have c1 : d - 30 > now := hfut
    have c2 : d - 15 > now := by linarith
    have c3 : d - 5 > now := by linarith
    have c4 : d + 5 > now := by linarith
    simp [schedule_reminder, hdue, hp, schedule_single_reminder,
      schedule_recurring_reminder, SchedState.empty, add_job, erase_job,
      c1, c2, c3, c4, n30_15, n30_5, n15_5, r30, r15, r5, policy_table_jobs]

/-- C2: for every priority, due time and `now`, a one-shot job of the
    policy row is installed if and only if its computed fire time is strictly
    after `now`, and the recurring job of the policy row is installed if and
    only if its start time `due + 5` is strictly after `now`; jobs whose time
    has passed are silently omitted (the scheduling call returns a state, it
    neither errors nor backfills). -/
theorem claim_C2_strict_future_inclusion (t : Task) (d now : Time)
    (hdue : t.due_time = some d) :
    (∀ rt off, (rt, off) ∈ one_shot_offsets t.priority →
      (find_job (schedule_reminder t now SchedState.empty).jobs
          (one_shot_job_id t.id rt) ≠ none ↔ d - off > now))
    ∧ (has_recurring_row t.priority →
      (find_job (schedule_reminder t now SchedState.empty).jobs
          (recurring_job_id t.id) ≠ none ↔ d + 5 > now)) := by
  have q12 : one_shot_job_id t.id "urgent_30min"
      ≠ one_shot_job_id t.id "urgent_15min" :=
    one_shot_job_id_ne _ _ (by decide) rfl
  have q13 : one_shot_job_id t.id "urgent_30min"
      ≠ one_shot_job_id t.id "urgent_5min" :=
    one_shot_job_id_ne _ _ (by decide) rfl
  have q23 : one_shot_job_id t.id "urgent_15min"
      ≠ one_shot_job_id t.id "urgent_5min" :=
    one_shot_job_id_ne _ _ (by decide) rfl
  have qr : ∀ rt : String,
      one_shot_job_id t.id rt ≠ recurring_job_id t.id :=
    fun rt h => recurring_job_id_ne_one_shot _ _ _ h.symm
  have qr' : ∀ rt : String,
      recurring_job_id t.id ≠ one_shot_job_id t.id rt :=
    fun rt => recurring_job_id_ne_one_shot _ _ _
  constructor
  · intro rt off hmem
    rw [find_schedule_reminder]
    have hempty : find_job SchedState.empty.jobs (one_shot_job_id t.id rt)
        = none := rfl
    rw [hempty]
    cases hp : t.priority <;> rw [hp] at hmem <;>
      simp only [one_shot_offsets, List.mem_cons, List.mem_singleton,
        Prod.mk.injEq, List.not_mem_nil, or_false] at hmem
    case low =>
      obtain ⟨h1, h2⟩ := hmem
      subst h1; subst h2
      by_cases hc : d - 15 > now <;>
        simp [sched_find_fun, hdue, hp, qr, hc]
    case medium =>
      obtain ⟨h1, h2⟩ := hmem
      subst h1; subst h2
      by_cases hc : d - 15 > now <;>
        simp [sched_find_fun, hdue, hp, qr, hc]
    case high =>
      obtain ⟨h1, h2⟩ := hmem
      subst h1; subst h2
      by_cases hc : d - 15 > now <;>
        simp [sched_find_fun, hdue, hp, qr, hc]
    case urgent =>
      rcases hmem with ⟨h1, h2⟩ | ⟨h1, h2⟩ | ⟨h1, h2⟩ <;> subst h1 <;> subst h2
      · by_cases hc : d - 30 > now <;>
          simp [sched_find_fun, hdue, hp, qr, q12, q13, hc]
      · by_cases hc : d - 15 > now <;>
          simp [sched_find_fun, hdue, hp, qr, q12.symm, q23, hc]
      · by_cases hc : d - 5 > now <;>
          simp [sched_find_fun, hdue, hp, qr, q13.symm, q23.symm, hc]
  · intro hrow
    rw [find_schedule_reminder]
    have hempty : find_job SchedState.empty.jobs (recurring_job_id t.id)
        = none := rfl
    rw [hempty]
    cases hp : t.priority <;> rw [hp] at hrow <;>
      simp only [has_recurring_row] at hrow
    case low => cases hrow <;> simp_all
    case medium => cases hrow <;> simp_all
    case high =>
      by_cases hc : d + 5 > now <;>
        simp [sched_find_fun, hdue, hp, qr', hc]
    case urgent =>
      by_cases hc : d + 5 > now <;>
        simp [sched_find_fun, hdue, hp, qr', hc]

/-- C6: rescheduling is idempotent on the installed timer set — calling
    `schedule_reminder` twice in succession with the same task and clock
    leaves exactly the same installed job at every job identity as calling it
    once (job ids are deterministic and `replace_existing=True` replaces
    rather than duplicates). -/
theorem claim_C6_reschedule_idempotent (t : Task) (now : Time)
    (st : SchedState) (jid : String) :
    find_job (schedule_reminder t now (schedule_reminder t now st)).jobs jid
      = find_job (schedule_reminder t now st).jobs jid := by
  rw [find_schedule_reminder, find_schedule_reminder, sched_find_fun_idem]

/-- A concrete urgent task used by several witnesses. -/
def urgentTask : Task :=
  { id := 7, title := "pay rent", due_time := some 100, priority := .urgent,
    status := .pending }

/-- A concrete overdue urgent task used by several witnesses. -/
def overdueTask : Task :=
  { id := 3, title := "report", due_time := some 50, priority := .urgent,
    status := .overdue }

/-- A concrete cancelled task used by several witnesses. -/
def cancelledTask : Task :=
  { id := 4, title := "call mom", status := .cancelled }

/-- Witness for C1 at an urgent task due at 100 scheduled at 0. -/
theorem claim_C1_policy_table_witness :
    urgentTask.due_time = some 100
    ∧ all_fire_times_future urgentTask.priority 100 0
    ∧ (schedule_reminder urgentTask 0 SchedState.empty).jobs
        = policy_table_jobs urgentTask 100 :=
  ⟨rfl, by norm_num [urgentTask, all_fire_times_future],
    claim_C1_policy_table urgentTask 100 0 rfl
      (by norm_num [urgentTask, all_fire_times_future])⟩

/-- Witness for C2: the 30-minute urgent one-shot is installed when its fire
    time is strictly in the future. -/
theorem claim_C2_strict_future_inclusion_witness :
    find_job (schedule_reminder urgentTask 0 SchedState.empty).jobs
        (one_shot_job_id 7 "urgent_30min") ≠ none :=
  ((claim_C2_strict_future_inclusion urgentTask 100 0 rfl).1
      "urgent_30min" 30 (by decide)).mpr (by decide)

/-- C3 as stated is false: completing an urgent task via the bot's complete
    callback leaves its one-shot reminder jobs installed — only the recurring
    job is removed. -/
theorem claim_C3_counterexample :
    (handle_complete [urgentTask]
        (schedule_reminder urgentTask 0 SchedState.empty) 7).1
      = [{ urgentTask with status := .completed }]
    ∧ find_job (handle_complete [urgentTask]
        (schedule_reminder urgentTask 0 SchedState.empty) 7).2.jobs
        (one_shot_job_id 7 "urgent_30min") ≠ none
    ∧ find_job (handle_complete [urgentTask]
        (schedule_reminder urgentTask 0 SchedState.empty) 7).2.jobs
        (recurring_job_id 7) = none := by decide

/-- C3 amended: the transition to completed cancels only the recurring
    reminder job, and only when the task's priority is high or urgent;
    one-shot jobs are never cancelled by it, and for medium/low priority the
    scheduler state is untouched (the code has no transition to cancelled at
    all). -/
theorem claim_C3_amended (tasks : List Task) (st : SchedState) (tid : Nat)
    (t : Task) (h : get_task tasks tid = some t) :
    (∀ rt, find_job (handle_complete tasks st tid).2.jobs
        (one_shot_job_id tid rt) = find_job st.jobs (one_shot_job_id tid rt))
    ∧ ((t.priority = .high ∨ t.priority = .urgent) →
        find_job (handle_complete tasks st tid).2.jobs
          (recurring_job_id tid) = none)
    ∧ (¬(t.priority = .high ∨ t.priority = .urgent) →
        (handle_complete tasks st tid).2 = st) := by
  unfold handle_complete
  rw [h]
  by_cases hpr : t.priority = .high ∨ t.priority = .urgent
  · refine ⟨?_, ?_, ?_⟩
    · intro rt
      have qr2 : one_shot_job_id tid rt ≠ recurring_job_id tid :=
        fun hh => recurring_job_id_ne_one_shot _ _ _ hh.symm
      simp [hpr, stop_recurring_reminders, find_job_erase, qr2]
    · intro _
      simp [hpr, stop_recurring_reminders, find_job_erase]
    · intro hcon
      exact absurd hpr hcon
  · simp [hpr]

/-- Witness for the amended C3: completing the concrete urgent task removes
    its recurring job (while the previous theorems show its one-shots
    survive). -/
theorem claim_C3_amended_witness :
    find_job (handle_complete [urgentTask]
        (schedule_reminder urgentTask 0 SchedState.empty) 7).2.jobs
      (recurring_job_id 7) = none :=
  (claim_C3_amended [urgentTask]
      (schedule_reminder urgentTask 0 SchedState.empty) 7 urgentTask
      (by decide)).2.1 (Or.inr rfl)

/-- C4: if the task's status is completed by the time a one-shot job fires
    (the firing body reloads the task by id), the firing dispatches nothing —
    zero sends result from that job, for any clock value, custom message and
    reminder type. -/
theorem claim_C4_completed_no_dispatch (tasks : List Task) (tid : Nat)
    (now : Time) (cm : Option String) (rt : String) (t : Task)
    (h : get_task tasks tid = some t) (hc : t.status = .completed) :
    send_reminder tasks tid now cm rt = none := by
  unfold send_reminder
  rw [h]
  simp [hc]

/-- Witness for C4 at a concrete completed task. -/
theorem claim_C4_completed_no_dispatch_witness :
    send_reminder [{ urgentTask with status := .completed }] 7 99 none
      "urgent_5min" = none :=
  claim_C4_completed_no_dispatch [{ urgentTask with status := .completed }]
    7 99 none "urgent_5min" { urgentTask with status := .completed }
    (by decide) rfl

/-- C5 as stated is false: for a task whose reloaded status is `overdue`
    (hence not `pending`), both firing bodies still dispatch a notification —
    the source checks only for `completed`. -/
theorem claim_C5_counterexample :
    overdueTask.status ≠ .pending
    ∧ (send_recurring_reminder [overdueTask] SchedState.empty 3 60).1 ≠ none
    ∧ send_reminder [overdueTask] 3 60 none "urgent_5min" ≠ none := by decide

/-- C5 amended: every firing body reloads the task by id, and whenever the
    reloaded status is `completed` (not: any non-pending status) it delivers
    nothing — the one-shot body does nothing further and the recurring body
    removes its own timer and exits, so once the task is completed the
    recurring job never fires again after the in-flight tick. -/
theorem claim_C5_amended (tasks : List Task) (st : SchedState) (tid : Nat)
    (now : Time) (rt : String) (t : Task)
    (h : get_task tasks tid = some t) (hc : t.status = .completed) :
    send_reminder tasks tid now none rt = none
    ∧ (send_recurring_reminder tasks st tid now).1 = none
    ∧ find_job (send_recurring_reminder tasks st tid now).2.jobs
        (recurring_job_id tid) = none := by
  unfold send_reminder send_recurring_reminder
  rw [h]
  simp [hc, stop_recurring_reminders, find_job_erase]

/-- Witness for the amended C5 at a concrete completed task. -/
theorem claim_C5_amended_witness :
    (send_recurring_reminder [{ urgentTask with status := .completed }]
        (schedule_reminder urgentTask 0 SchedState.empty) 7 120).1 = none :=
  (claim_C5_amended [{ urgentTask with status := .completed }]
      (schedule_reminder urgentTask 0 SchedState.empty) 7 120 "x"
      { urgentTask with status := .completed } (by decide) rfl).2.1

/-- C7 as stated is false: `cancelled` is not terminal — invoking the
    bot's complete callback on a cancelled task moves it to `completed`,
    because `mark_completed` sets the status unconditionally. -/
theorem claim_C7_counterexample :
    cancelledTask.status = .cancelled
    ∧ (handle_complete [cancelledTask] SchedState.empty 4).1
        = [{ cancelledTask with status := .completed }] := by decide

/-- C7 amended: under the status-changing operations of the system (the
    overdue sweep and completion), status moves forward: a sweep result is
    `pending` only if the task was already `pending`, `overdue` arises only
    from `pending` (or was already `overdue`), `completed` is terminal and
    the sweep also preserves `cancelled`; but `cancelled` is not terminal —
    `mark_completed` sets any task, including a cancelled one, to
    `completed`. -/
theorem claim_C7_amended (t : Task) (now : Time) :
    ((sweep_task now t).status = .pending → t.status = .pending)
    ∧ ((sweep_task now t).status = .overdue →
        t.status = .pending ∨ t.status = .overdue)
    ∧ (t.status = .completed → (sweep_task now t).status = .completed)
    ∧ (t.status = .cancelled → (sweep_task now t).status = .cancelled)
    ∧ (mark_completed t).status = .completed := by
  unfold sweep_task mark_completed
  cases hdu : t.due_time with
  | none => exact ⟨id, fun h2 => Or.inr h2, id, id, rfl⟩
  | some d =>
      dsimp only
      split_ifs with hc
      · refine ⟨?_, ?_, ?_, ?_, rfl⟩ <;> intro h2 <;> simp_all
      · exact ⟨id, fun h2 => Or.inr h2, id, id, rfl⟩

/-- Witness for the amended C7: the sweep preserves a completed task, and
    `mark_completed` turns the concrete cancelled task into a completed
    one. -/
theorem claim_C7_amended_witness :
    (sweep_task 200 { urgentTask with status := .completed }).status
        = .completed
    ∧ (mark_completed cancelledTask).status = .completed :=
  ⟨(claim_C7_amended { urgentTask with status := .completed } 200).2.2.1 rfl,
   (claim_C7_amended cancelledTask 0).2.2.2.2⟩

/-- C8: one overdue-sweep cycle transitions every pending task whose due
    time is strictly before `now` to `overdue` and changes nothing else:
    non-pending tasks, tasks with no due time, and pending tasks due at
    `now` or later are left untouched (the sweep also preserves list
    positions, so nothing is added or removed). -/
theorem claim_C8_overdue_sweep (now : Time) (tasks : List Task) (i : Nat)
    (t : Task) (h : tasks[i]? = some t) :
    (∀ d, t.due_time = some d → d < now → t.status = .pending →
        (check_overdue_tasks now tasks)[i]?
          = some { t with status := .overdue })
    ∧ (t.status ≠ .pending → (check_overdue_tasks now tasks)[i]? = some t)
    ∧ (t.due_time = none → (check_overdue_tasks now tasks)[i]? = some t)
    ∧ (∀ d, t.due_time = some d → now ≤ d →
        (check_overdue_tasks now tasks)[i]? = some t) := by
  unfold check_overdue_tasks
  rw [List.getElem?_map, h]
  refine ⟨?_, ?_, ?_, ?_⟩
  · intro d hd hlt hp
    simp [sweep_task, hd, hlt, hp]
  · intro hp
    have : sweep_task now t = t := by
      unfold sweep_task
      cases hd : t.due_time with
      | none => rfl
      | some d =>
          dsimp only
          split_ifs with hc
          · exact absurd hc.2 hp
          · rfl
    simp [this]
  · intro hd
    simp [sweep_task, hd]
  · intro d hd hge
    have : sweep_task now t = t := by
      unfold sweep_task
      rw [hd]
      dsimp only
      split_ifs with hc
      · exact absurd hc.1 (by linarith)
      · rfl
    simp [this]

/-- Witness for C8: the sweep at time 200 marks the concrete pending task
    due at 100 overdue. -/
theorem claim_C8_overdue_sweep_witness :
    (check_overdue_tasks 200 [urgentTask])[0]?
      = some { urgentTask with status := .overdue } :=
  (claim_C8_overdue_sweep 200 [urgentTask] 0 urgentTask rfl).1
    100 rfl (by norm_num) rfl

/-- C9 as stated is false: scheduling the concrete urgent task installs
    four jobs (three one-shots plus the recurring job) but persists only
    three `Reminder` records — the newly installed recurring job gets no
    record. -/
theorem claim_C9_counterexample :
    (schedule_reminder urgentTask 0 SchedState.empty).jobs.length = 4
    ∧ (schedule_reminder urgentTask 0 SchedState.empty).reminders.length = 3 := by
  decide

/-- C9 amended: exactly one `Reminder` record is persisted per newly
    installed one-shot job, but installing the recurring job persists no
    record at all. -/
theorem claim_C9_amended (t : Task) (rt : String) (time now : Time)
    (st : SchedState) :
    (schedule_single_reminder t time rt st).reminders
      = st.reminders ++ [reminder_row t time]
    ∧ (schedule_recurring_reminder t now st).reminders = st.reminders := by
  constructor
  · rfl
  · unfold schedule_recurring_reminder
    cases t.due_time with
    | none => rfl
    | some d =>
        dsimp only
        split_ifs <;> rfl

/-- The list of `Reminder` rows one `schedule_reminder` call appends (proof
    helper: one row per one-shot job it installs, none for the recurring
    job). -/
def reminder_block (t : Task) (now : Time) : List Reminder :=
  match t.due_time with
  | none => []
  | some d =>
      match t.priority with
      | .urgent =>
          (if d - 30 > now then [reminder_row t (d - 30)] else [])
            ++ (if d - 15 > now then [reminder_row t (d - 15)] else [])
            ++ (if d - 5 > now then [reminder_row t (d - 5)] else [])
      | .high => if d - 15 > now then [reminder_row t (d - 15)] else []
      | _ => if d - 15 > now then [reminder_row t (d - 15)] else []

theorem sched_reminders_append (t : Task) (now : Time) (st : SchedState) :
    (schedule_reminder t now st).reminders
      = st.reminders ++ reminder_block t now := by
  unfold schedule_reminder reminder_block
  cases hdd : t.due_time with
  | none => simp
  | some d =>
      cases hpp : t.priority <;>
        simp only [schedule_single_reminder, schedule_recurring_reminder,
          hdd, hpp] <;>
        split_ifs <;> simp

theorem countP_reminder_block (t : Task) (d now : Time)
    (hdue : t.due_time = some d) (rt : String) (off : Int)
    (hmem : (rt, off) ∈ one_shot_offsets t.priority) (hf : d - off > now) :
    (reminder_block t now).countP
      (fun r => r.reminder_time == d - off && r.taskId == t.id) = 1 := by
  unfold reminder_block
  rw [hdue]
  cases hp : t.priority <;> rw [hp] at hmem <;>
    simp only [one_shot_offsets, List.mem_cons, List.mem_singleton,
      Prod.mk.injEq, List.not_mem_nil, or_false] at hmem
  case low =>
    obtain ⟨h1, h2⟩ := hmem
    subst h1; subst h2
    simp [hf, reminder_row, List.countP_cons]
  case medium =>
    obtain ⟨h1, h2⟩ := hmem
    subst h1; subst h2
    simp [hf, reminder_row, List.countP_cons]
  case high =>
    obtain ⟨h1, h2⟩ := hmem
    subst h1; subst h2
    simp [hf, reminder_row, List.countP_cons]
  case urgent =>
    have e1 : ((d - 15 : Int) == d - 30) = false := by
      rw [beq_eq_false_iff_ne]; intro hh; linarith
    have e2 : ((d - 5 : Int) == d - 30) = false := by
      rw [beq_eq_false_iff_ne]; intro hh; linarith
    have e3 : ((d - 30 : Int) == d - 15) = false := by
      rw [beq_eq_false_iff_ne]; intro hh; linarith
    have e4 : ((d - 5 : Int) == d - 15) = false := by
      rw [beq_eq_false_iff_ne]; intro hh; linarith
    have e5 : ((d - 30 : Int) == d - 5) = false := by
      rw [beq_eq_false_iff_ne]; intro hh; linarith
    have e6 : ((d - 15 : Int) == d - 5) = false := by
      rw [beq_eq_false_iff_ne]; intro hh; linarith
    rcases hmem with ⟨h1, h2⟩ | ⟨h1, h2⟩ | ⟨h1, h2⟩ <;> subst h1 <;> subst h2
    · have c2 : d - 15 > now := by linarith
      have c3 : d - 5 > now := by linarith
      simp [hf, c2, c3, reminder_row, List.countP_append, List.countP_cons,
        e1, e2]
    · have c3 : d - 5 > now := by linarith
      dsimp only
      simp only [hf, c3, if_true]
      split_ifs <;>
        simp [reminder_row, List.countP_append, List.countP_cons, e3, e4]
    · dsimp only
      simp only [hf, if_true]
      split_ifs <;>
        simp [reminder_row, List.countP_append, List.countP_cons, e5, e6]

theorem countP_iterate_schedule (t : Task) (now : Time) (n : Nat)
    (p : Reminder → Bool) (c : Nat) (hc : (reminder_block t now).countP p = c) :
    ((fun s => schedule_reminder t now s)^[n] SchedState.empty).reminders.countP
        p = n * c := by
  induction n with
  | zero => simp [SchedState.empty]
  | succ k ih =>
      rw [Function.iterate_succ_apply']
      rw [sched_reminders_append, List.countP_append, ih, hc]
      ring

theorem find_iterate_schedule (t : Task) (now : Time) (m : Nat)
    (jid : String) :
    find_job ((fun s => schedule_reminder t now s)^[m + 1]
        SchedState.empty).jobs jid
      = sched_find_fun t now jid none := by
  induction m with
  | zero =>
      rw [Function.iterate_one]
      rw [find_schedule_reminder]
      rfl
  | succ k ih =>
      rw [Function.iterate_succ_apply']
      rw [find_schedule_reminder, ih, sched_find_fun_idem]

/-- C10: for a task with at least one one-shot fire time strictly in the
    future, each scheduling call unconditionally appends a fresh `Reminder`
    record per installed one-shot job, never reusing or removing earlier
    records: `n` successive calls with unchanged task state and clock leave
    `n` persisted records per future one-shot kind, even though the installed
    job at every job identity equals that of a single call. -/
theorem claim_C10_records_accumulate (t : Task) (d now : Time) (n : Nat)
    (hdue : t.due_time = some d) (hn : 1 ≤ n)
    (_hfut : ∃ q ∈ one_shot_offsets t.priority, d - q.2 > now) :
    (∀ rt off, (rt, off) ∈ one_shot_offsets t.priority → d - off > now →
        ((fun s => schedule_reminder t now s)^[n]
            SchedState.empty).reminders.countP
          (fun r => r.reminder_time == d - off && r.taskId == t.id) = n)
    ∧ ((fun s => schedule_reminder t now s)^[n] SchedState.empty).reminders
        = ((fun s => schedule_reminder t now s)^[n - 1]
            SchedState.empty).reminders ++ reminder_block t now
    ∧ (∀ jid, find_job ((fun s => schedule_reminder t now s)^[n]
          SchedState.empty).jobs jid
        = find_job (schedule_reminder t now SchedState.empty).jobs jid) := by
  obtain ⟨m, rfl⟩ : ∃ m, n = m + 1 :=
    ⟨n - 1, (Nat.succ_pred_eq_of_pos hn).symm⟩
  refine ⟨?_, ?_, ?_⟩
  · intro rt off hmem hf
    have h1 := countP_reminder_block t d now hdue rt off hmem hf
    have h2 := countP_iterate_schedule t now (m + 1) _ 1 h1
    simpa using h2
  · rw [Function.iterate_succ_apply', sched_reminders_append]
    simp
  · intro jid
    rw [find_iterate_schedule]
    have h1 := find_iterate_schedule t now 0 jid
    rw [Function.iterate_one] at h1
    exact h1.symm

/-- Witness for C10: three successive scheduling calls on the concrete
    urgent task leave three persisted records for the 30-minute kind. -/
theorem claim_C10_records_accumulate_witness :
    ((fun s => schedule_reminder urgentTask 0 s)^[3]
        SchedState.empty).reminders.countP
      (fun r => r.reminder_time == (100 : Int) - 30
          && r.taskId == urgentTask.id) = 3 :=
  (claim_C10_records_accumulate urgentTask 100 0 3 rfl (by norm_num)
      ⟨("urgent_30min", 30), by decide, by norm_num⟩).1
    "urgent_30min" 30 (by decide) (by norm_num)

end Bot
